import Mathlib

/-!
Shallow embedding of src/vector_add/vector_add.c and proofs about it.

The program is a linear OpenCL host driver: it allocates three host
arrays of 2048 ints, fills A and B with 1, issues a fixed sequence of
device-API calls, launches the vecadd kernel over a 2048-wide index
space in work-groups of 256, downloads the result, releases all device
resources and prints the 2048 elements of C one per line.

The external OpenCL library is not part of the repository; it is
modelled as an environment that assigns a status to each API call site
and supplies the contents of uninitialized host memory.  The host code
itself (control flow, which statuses reach the check helper, the print
statements, the order of calls) is translated directly from the source.
Standard output is modelled at line granularity: every printf in the
source ends a line exactly when it emits a newline, and the two printf
calls of the output loop together emit one line per element.
-/

/-- Number of elements in each array: const int elements = 2048 (line 42). -/
def elements : Nat := 2048

/-- First component of the index space: indexSpaceSize[0] = elements (line 112). -/
def indexSpaceSize : Nat := elements

/-- First component of the work-group size: workGroupSize[0] = 256 (line 113). -/
def workGroupSize : Nat := 256

/-- Wrap an integer into the range of a 32-bit signed int, the type of the
kernel arguments and of the host arrays. -/
def i32wrap (x : Int) : Int := (x + 2 ^ 31) % 2 ^ 32 - 2 ^ 31

/-- Body of the vecadd kernel from the embedded kernel text (programSource,
lines 15 to 29): the work-item with global id idx stores A[idx] + B[idx]
into C[idx], in 32-bit int arithmetic. -/
def vecadd (A B : Nat → Int) (idx : Nat) : Int := i32wrap (A idx + B idx)

/-- Result of the check helper (lines 31 to 36): it either returns to the
caller or prints the error line and exits the process with -1. -/
inductive CheckResult where
  | cont
  | abort
deriving DecidableEq, Repr

/-- Translation of the check helper (lines 31 to 36): abort exactly when the
status is strictly negative. -/
def check (status : Int) : CheckResult :=
  if status < 0 then CheckResult.abort else CheckResult.cont

/-- The line printed by the check helper before exiting. -/
def errLine : String := "ERROR. Exiting..."

/-- Identifier of one of the three device buffers. -/
inductive BufId where
  | A
  | B
  | C
deriving DecidableEq, Repr, BEq

/-- One device-API call made by main, in program order. -/
inductive Event where
  | getPlatformIDs
  | getDeviceIDs
  | createContext
  | createCommandQueue
  | createBuffer (b : BufId)
  | enqueueWriteBuffer (b : BufId)
  | createProgramWithSource
  | buildProgram
  | createKernel
  | setKernelArg (n : Nat)
  | enqueueNDRangeKernel
  | enqueueReadBuffer
  | releaseKernel
  | releaseProgram
  | releaseCommandQueue
  | releaseMemObject (b : BufId)
  | releaseContext
deriving DecidableEq, Repr, BEq

/-- Environment a run executes against: the status returned by each
device-API call site of main, in source order, plus the junk contents of
the malloc allocation backing the host output array C.  Every field is
unconstrained: the library is an external collaborator. -/
structure Env where
  getPlatformIDs : Int
  getDeviceIDs : Int
  createContext : Int
  createCommandQueue : Int
  createBufA : Int
  createBufB : Int
  createBufC : Int
  writeBufA : Int
  writeBufB : Int
  createProgram : Int
  buildProgram : Int
  createKernel : Int
  setArg0 : Int
  setArg1 : Int
  setArg2 : Int
  enqueueKernel : Int
  readBuf : Int
  uninitC : Nat → Int

/-- Observable outcome of a run: the process exit code, the lines printed
to standard output, the trace of device-API calls issued, and the final
contents of the three host arrays. -/
structure RunResult where
  exitCode : Int
  lines : List String
  events : List Event
  a : Nat → Int
  b : Nat → Int
  c : Nat → Int

/-- Modelled from the spec: behavior of the external device and transfer
calls, which are not code under src.  Per spec steps 7, 10 and 11, when the
two uploads and the blocking readback succeed, the device has executed one
work-item per global id of the index space, each computing the vecadd
kernel body, and the downloaded host array holds those results; when a
transfer fails, the downloaded contents are unspecified and the host array
keeps its uninitialized malloc contents. -/
def downloadedC (e : Env) (A B : Nat → Int) : Nat → Int :=
  if 0 ≤ e.writeBufA ∧ 0 ≤ e.writeBufB ∧ 0 ≤ e.readBuf then
    fun i => if i < indexSpaceSize then vecadd A B i else e.uninitC i
  else
    e.uninitC

/-- The seven diagnostic progress lines printed by main on the success
path, in order (lines 86, 91, 96, 101, 116, 120, 121). -/
def diagLines : List String :=
  ["Create a program with source code",
   "Build (compile) the program for the device",
   "Create the vector addition kernel",
   "Set the kernel arguments",
   "Execute the kernel",
   "The kernel has finished execution on the device",
   "Read the device output buffer to the host output array"]

/-- Translation of main (lines 38 to 146).  The local variable status is
assigned by every call site but reaches the check helper only at five
places: after clCreateProgramWithSource, clBuildProgram, clCreateKernel,
the third clSetKernelArg, and clEnqueueNDRangeKernel; the three
clSetKernelArg assignments overwrite each other, so only the third is
inspected.  On abort, check prints the error line and the process exits
with -1; otherwise main releases every device resource, prints the 2048
elements of C one per line, and returns 0. -/
def run (e : Env) : RunResult :=
  let A : Nat → Int := fun _ => 1
  let B : Nat → Int := fun _ => 1
  let ev1 : List Event :=
    [Event.getPlatformIDs, Event.getDeviceIDs, Event.createContext,
     Event.createCommandQueue, Event.createBuffer BufId.A,
     Event.createBuffer BufId.B, Event.createBuffer BufId.C,
     Event.enqueueWriteBuffer BufId.A, Event.enqueueWriteBuffer BufId.B,
     Event.createProgramWithSource]
  let out1 : List String := ["Create a program with source code"]
  if check e.createProgram = CheckResult.abort then
    ⟨-1, out1 ++ [errLine], ev1, A, B, e.uninitC⟩
  else
    let out2 := out1 ++ ["Build (compile) the program for the device"]
    let ev2 := ev1 ++ [Event.buildProgram]
    if check e.buildProgram = CheckResult.abort then
      ⟨-1, out2 ++ [errLine], ev2, A, B, e.uninitC⟩
    else
      let out3 := out2 ++ ["Create the vector addition kernel"]
      let ev3 := ev2 ++ [Event.createKernel]
      if check e.createKernel = CheckResult.abort then
        ⟨-1, out3 ++ [errLine], ev3, A, B, e.uninitC⟩
      else
        let out4 := out3 ++ ["Set the kernel arguments"]
        let ev4 := ev3 ++ [Event.setKernelArg 0, Event.setKernelArg 1,
          Event.setKernelArg 2]
        if check e.setArg2 = CheckResult.abort then
          ⟨-1, out4 ++ [errLine], ev4, A, B, e.uninitC⟩
        else
          let out5 := out4 ++ ["Execute the kernel"]
          let ev5 := ev4 ++ [Event.enqueueNDRangeKernel]
          if check e.enqueueKernel = CheckResult.abort then
            ⟨-1, out5 ++ [errLine], ev5, A, B, e.uninitC⟩
          else
            let out6 := out5 ++
              ["The kernel has finished execution on the device",
               "Read the device output buffer to the host output array"]
            let ev6 := ev5 ++ [Event.enqueueReadBuffer]
            let C : Nat → Int := downloadedC e A B
            let ev7 := ev6 ++ [Event.releaseKernel, Event.releaseProgram,
              Event.releaseCommandQueue, Event.releaseMemObject BufId.A,
              Event.releaseMemObject BufId.B, Event.releaseMemObject BufId.C,
              Event.releaseContext]
            let out7 := out6 ++ (List.range elements).map (fun i => toString (C i))
            ⟨0, out7, ev7, A, B, C⟩

/-- Every device-API call site of the run reported a nonnegative status. -/
def Env.allOk (e : Env) : Prop :=
  0 ≤ e.getPlatformIDs ∧ 0 ≤ e.getDeviceIDs ∧ 0 ≤ e.createContext ∧
  0 ≤ e.createCommandQueue ∧ 0 ≤ e.createBufA ∧ 0 ≤ e.createBufB ∧
  0 ≤ e.createBufC ∧ 0 ≤ e.writeBufA ∧ 0 ≤ e.writeBufB ∧
  0 ≤ e.createProgram ∧ 0 ≤ e.buildProgram ∧ 0 ≤ e.createKernel ∧
  0 ≤ e.setArg0 ∧ 0 ≤ e.setArg1 ∧ 0 ≤ e.setArg2 ∧
  0 ≤ e.enqueueKernel ∧ 0 ≤ e.readBuf

instance (e : Env) : Decidable e.allOk := by
  unfold Env.allOk
  infer_instance

/-- One of the five statuses that actually reach the check helper is
negative. -/
def Env.checkFails (e : Env) : Prop :=
  e.createProgram < 0 ∨ e.buildProgram < 0 ∨ e.createKernel < 0 ∨
  e.setArg2 < 0 ∨ e.enqueueKernel < 0

instance (e : Env) : Decidable e.checkFails := by
  unfold Env.checkFails
  infer_instance

/-- Modelled from the spec: the platform-unavailable failure scenario of
spec section 8 concerns the external library, which is not code under src.
When no compute platform is available, platform enumeration reports a
negative status, and creating a program with source on the context derived
from the failed enumeration also reports a negative status. -/
def Env.noPlatform (e : Env) : Prop :=
  e.getPlatformIDs < 0 ∧ e.createProgram < 0

/-- Index of the first occurrence of an event in a trace (length of the
trace if absent). -/
def firstPos : List Event → Event → Nat
  | [], _ => 0
  | x :: tr, y => if x = y then 0 else firstPos tr y + 1

/-- Lines printed by a run in which every device-API call succeeds. -/
def successLines : List String :=
  diagLines ++ (List.range elements).map (fun _ => toString (2 : Int))

/-- Environment in which every call succeeds with status 0. -/
def okEnv : Env :=
  ⟨0, 0, 0, 0, 0, 0, 0, 0, 0, 0, 0, 0, 0, 0, 0, 0, 0, fun _ => 0⟩

/-- Environment in which every call succeeds with status 1 and the
uninitialized memory holds different junk. -/
def okEnv2 : Env :=
  ⟨1, 1, 1, 1, 1, 1, 1, 1, 1, 1, 1, 1, 1, 1, 1, 1, 1, fun _ => 37⟩

/-- Environment in which platform enumeration fails but, contrary to any
conforming library, every later call reports success. -/
def badPlatformEnv : Env :=
  ⟨-1, 0, 0, 0, 0, 0, 0, 0, 0, 0, 0, 0, 0, 0, 0, 0, 0, fun _ => 0⟩

/-- Environment in which no platform is available and the program-creation
call on the resulting invalid context fails as well. -/
def noPlatformEnv : Env :=
  ⟨-1, -1, -2, -2, -3, -3, -3, -4, -4, -5, -5, -6, -7, -7, -7, -8, -9, fun _ => 0⟩

/-- Environment in which only the program build fails. -/
def failBuildEnv : Env :=
  ⟨0, 0, 0, 0, 0, 0, 0, 0, 0, 0, -3, 0, 0, 0, 0, 0, 0, fun _ => 0⟩

lemma check_abort_iff (s : Int) : check s = CheckResult.abort ↔ s < 0 := by
  unfold check
  split_ifs with h <;> simp [h]

lemma check_cont_of_nonneg (s : Int) (h : 0 ≤ s) : check s = CheckResult.cont := by
  unfold check
  split_ifs with hs
  · omega
  · rfl

/-- Device-API events issued by a run that passes all five checks. -/
def successEvents : List Event :=
  [Event.getPlatformIDs, Event.getDeviceIDs, Event.createContext,
   Event.createCommandQueue, Event.createBuffer BufId.A, Event.createBuffer BufId.B,
   Event.createBuffer BufId.C, Event.enqueueWriteBuffer BufId.A,
   Event.enqueueWriteBuffer BufId.B, Event.createProgramWithSource,
   Event.buildProgram, Event.createKernel, Event.setKernelArg 0,
   Event.setKernelArg 1, Event.setKernelArg 2, Event.enqueueNDRangeKernel,
   Event.enqueueReadBuffer, Event.releaseKernel, Event.releaseProgram,
   Event.releaseCommandQueue, Event.releaseMemObject BufId.A,
   Event.releaseMemObject BufId.B, Event.releaseMemObject BufId.C,
   Event.releaseContext]

instance (e : Env) : Decidable e.noPlatform := by
  unfold Env.noPlatform
  infer_instance

lemma downloadedC_ok (e : Env) (h8 : 0 ≤ e.writeBufA) (h9 : 0 ≤ e.writeBufB)
    (h17 : 0 ≤ e.readBuf) (i : Nat) (hi : i < elements) :
    downloadedC e (fun _ => 1) (fun _ => 1) i = 2 := by
  unfold downloadedC
  rw [if_pos ⟨h8, h9, h17⟩, if_pos (show i < indexSpaceSize from hi)]
  unfold vecadd i32wrap
  norm_num

lemma run_success (e : Env) (h : ¬ e.checkFails) :
    run e = ⟨0,
      diagLines ++ (List.range elements).map
        (fun i => toString (downloadedC e (fun _ => 1) (fun _ => 1) i)),
      successEvents, fun _ => 1, fun _ => 1,
      downloadedC e (fun _ => 1) (fun _ => 1)⟩ := by
  unfold Env.checkFails at h
  push_neg at h
  obtain ⟨h10, h11, h12, h15, h16⟩ := h
  simp only [run]
  rw [check_cont_of_nonneg _ h10, check_cont_of_nonneg _ h11,
    check_cont_of_nonneg _ h12, check_cont_of_nonneg _ h15,
    check_cont_of_nonneg _ h16]
  simp [diagLines, successEvents]

lemma run_abort (e : Env) (h : e.checkFails) :
    (run e).exitCode = -1 ∧ (run e).lines.getLast? = some errLine ∧
    (run e).lines.length ≤ 6 := by
  simp only [run]
  split_ifs with h1 h2 h3 h4 h5
  · exact ⟨rfl, rfl, by simp⟩
  · exact ⟨rfl, rfl, by simp⟩
  · exact ⟨rfl, rfl, by simp⟩
  · exact ⟨rfl, rfl, by simp⟩
  · exact ⟨rfl, rfl, by simp⟩
  · rw [check_abort_iff] at h1 h2 h3 h4 h5
    unfold Env.checkFails at h
    exact absurd h (by tauto)

lemma not_checkFails_of_exit_zero (e : Env) (h : (run e).exitCode = 0) :
    ¬ e.checkFails := by
  intro hc
  have := (run_abort e hc).1
  omega

lemma allOk_not_checkFails (e : Env) (h : e.allOk) : ¬ e.checkFails := by
  unfold Env.allOk at h
  unfold Env.checkFails
  omega

lemma allOk_transfers (e : Env) (h : e.allOk) :
    0 ≤ e.writeBufA ∧ 0 ≤ e.writeBufB ∧ 0 ≤ e.readBuf := by
  unfold Env.allOk at h
  tauto

lemma run_c_allOk (e : Env) (h : e.allOk) :
    ∀ i, i < elements → (run e).c i = 2 := by
  intro i hi
  obtain ⟨h8, h9, h17⟩ := allOk_transfers e h
  rw [run_success e (allOk_not_checkFails e h)]
  exact downloadedC_ok e h8 h9 h17 i hi

lemma run_lines_allOk (e : Env) (h : e.allOk) : (run e).lines = successLines := by
  obtain ⟨h8, h9, h17⟩ := allOk_transfers e h
  rw [run_success e (allOk_not_checkFails e h)]
  unfold successLines
  show diagLines ++ _ = diagLines ++ _
  refine congrArg (fun t => diagLines ++ t) ?_
  apply List.map_congr_left
  intro i hi
  rw [downloadedC_ok e h8 h9 h17 i (List.mem_range.mp hi)]

/-- C1: on every run in which all device-API calls report success (so the
run reaches completion with the fixed inputs A[i] = B[i] = 1), the
downloaded output array satisfies C[i] = 2 for every index below 2048. -/
theorem run_allOk_outputs_two (e : Env) (h : e.allOk) :
    (run e).exitCode = 0 ∧ ∀ i, i < elements → (run e).c i = 2 := by
  refine ⟨?_, run_c_allOk e h⟩
  rw [run_success e (allOk_not_checkFails e h)]

theorem run_allOk_outputs_two_witness :
    okEnv.allOk ∧ ((run okEnv).exitCode = 0 ∧ ∀ i, i < elements → (run okEnv).c i = 2) :=
  ⟨by decide, run_allOk_outputs_two okEnv (by decide)⟩

/-- C2: on a run that exits successfully, standard output is the seven
diagnostic lines followed by exactly 2048 element lines, the line of index
i being the decimal rendering of C[i]; the lines are the image of the index
range in order, so no element is skipped or duplicated. -/
theorem run_success_prints_each_element (e : Env) (h : (run e).exitCode = 0) :
    (run e).lines = diagLines ++ (List.range elements).map (fun i => toString ((run e).c i)) ∧
    ((List.range elements).map (fun i => toString ((run e).c i))).length = elements := by
  have hnf := not_checkFails_of_exit_zero e h
  constructor
  · rw [run_success e hnf]
  · simp

theorem run_success_prints_each_element_witness :
    (run okEnv).exitCode = 0 ∧
      (run okEnv).lines = diagLines ++ (List.range elements).map
        (fun i => toString ((run okEnv).c i)) :=
  ⟨by rfl, (run_success_prints_each_element okEnv (by rfl)).1⟩

/-- C3 counterexample: in badPlatformEnv the platform-enumeration call
reports a negative status, yet the run does not abort: its status is stored
and never inspected, so the process exits with 0 and prints the full
7 + 2048 lines. -/
theorem unchecked_status_counterexample :
    badPlatformEnv.getPlatformIDs < 0 ∧ (run badPlatformEnv).exitCode = 0 ∧
    (run badPlatformEnv).lines.length = 7 + elements := by
  refine ⟨by decide, by rfl, ?_⟩
  rw [run_success badPlatformEnv (by decide)]
  simp [diagLines]
  omega

/-- C3 amended: only the five statuses that reach the check helper are
inspected (program creation, program build, kernel creation, the third
argument-set call, and kernel dispatch); the run aborts exactly when one of
those five is negative, and on such an abort the last printed line is the
generic error message and at most six lines were printed, so none of the
2048 output lines appear; the statuses of the remaining call sites are
stored but never checked. -/
theorem abort_iff_checked_status_negative (e : Env) :
    ((run e).exitCode = -1 ↔ e.checkFails) ∧
    (e.checkFails → (run e).lines.getLast? = some errLine ∧ (run e).lines.length ≤ 6) := by
  constructor
  · constructor
    · intro h
      by_contra hc
      rw [run_success e hc] at h
      have h0 : (0 : Int) = -1 := h
      omega
    · intro h
      exact (run_abort e h).1
  · intro h
    exact (run_abort e h).2
theorem abort_iff_checked_status_negative_witness :
    (run failBuildEnv).exitCode = -1 ∧ (run failBuildEnv).lines.getLast? = some errLine :=
  ⟨(abort_iff_checked_status_negative failBuildEnv).1.mpr (by decide),
   ((abort_iff_checked_status_negative failBuildEnv).2 (by decide)).1⟩

/-- C4: in the modelled platform-unavailable scenario (platform enumeration
fails and program creation on the derived context fails as well), the run
exits with a nonzero code and prints only the first diagnostic line and the
error line, none of the 2048 output lines. -/
theorem no_platform_aborts_without_output (e : Env) (h : e.noPlatform) :
    (run e).exitCode ≠ 0 ∧
    (run e).lines = ["Create a program with source code", errLine] := by
  obtain ⟨_, hcp⟩ := h
  have habort : check e.createProgram = CheckResult.abort := (check_abort_iff _).mpr hcp
  constructor
  · have h1 : (run e).exitCode = -1 := (run_abort e (Or.inl hcp)).1
    omega
  · simp only [run]
    rw [habort]
    simp

theorem no_platform_aborts_without_output_witness :
    noPlatformEnv.noPlatform ∧ ((run noPlatformEnv).exitCode ≠ 0 ∧
      (run noPlatformEnv).lines = ["Create a program with source code", errLine]) :=
  ⟨by decide, no_platform_aborts_without_output noPlatformEnv (by decide)⟩

/-- C5: the process exit code is 0 on every run in which no checked status
is negative, and -1 on every run in which a checked status is negative, via
the abort-on-error helper. -/
theorem exit_code_values (e : Env) :
    (¬ e.checkFails → (run e).exitCode = 0) ∧
    (e.checkFails → (run e).exitCode = -1) := by
  constructor
  · intro h
    rw [run_success e h]
  · intro h
    exact (run_abort e h).1

theorem exit_code_values_witness :
    (run okEnv2).exitCode = 0 ∧ (run failBuildEnv).exitCode = -1 :=
  ⟨(exit_code_values okEnv2).1 (by decide), (exit_code_values failBuildEnv).2 (by decide)⟩

/-- C6: the dispatch parameters satisfy the divisibility requirement: the
index space has size 2048, the work-group size is 256, 256 evenly divides
2048, and the dispatch yields exactly 8 work-groups. -/
theorem dispatch_divisibility :
    indexSpaceSize = 2048 ∧ workGroupSize = 256 ∧
    workGroupSize ∣ indexSpaceSize ∧ indexSpaceSize / workGroupSize = 8 := by
  decide

/-- C7: determinism across runs — the program takes no input, arguments or
environment, so any two runs in which every device-API call succeeds print
identical standard-output text and exit with the same code. -/
theorem run_deterministic_output (e1 e2 : Env) (h1 : e1.allOk) (h2 : e2.allOk) :
    (run e1).lines = (run e2).lines ∧ (run e1).exitCode = (run e2).exitCode := by
  constructor
  · rw [run_lines_allOk e1 h1, run_lines_allOk e2 h2]
  · rw [run_success e1 (allOk_not_checkFails e1 h1),
      run_success e2 (allOk_not_checkFails e2 h2)]

theorem run_deterministic_output_witness :
    okEnv.allOk ∧ okEnv2.allOk ∧ (run okEnv).lines = (run okEnv2).lines :=
  ⟨by decide, by decide,
   (run_deterministic_output okEnv okEnv2 (by decide) (by decide)).1⟩

/-- In the device-API trace of a run that passes all five checks, the
context-creation event precedes each buffer-creation event and each
buffer-release event precedes the context-release event. -/
lemma successEvents_nesting :
    firstPos successEvents Event.createContext <
      firstPos successEvents (Event.createBuffer BufId.A) ∧
    firstPos successEvents Event.createContext <
      firstPos successEvents (Event.createBuffer BufId.B) ∧
    firstPos successEvents Event.createContext <
      firstPos successEvents (Event.createBuffer BufId.C) ∧
    firstPos successEvents (Event.releaseMemObject BufId.A) <
      firstPos successEvents Event.releaseContext ∧
    firstPos successEvents (Event.releaseMemObject BufId.B) <
      firstPos successEvents Event.releaseContext ∧
    firstPos successEvents (Event.releaseMemObject BufId.C) <
      firstPos successEvents Event.releaseContext := by
  decide

/-- C8: in every run that exits successfully, the context-creation event
precedes each of the three buffer-creation events, and each of the three
buffer-release events precedes the context-release event, so every buffer
lifetime is strictly nested inside the context lifetime. -/
theorem buffer_lifetime_nested_in_context (e : Env) (h : (run e).exitCode = 0) :
    firstPos (run e).events Event.createContext <
      firstPos (run e).events (Event.createBuffer BufId.A) ∧
    firstPos (run e).events Event.createContext <
      firstPos (run e).events (Event.createBuffer BufId.B) ∧
    firstPos (run e).events Event.createContext <
      firstPos (run e).events (Event.createBuffer BufId.C) ∧
    firstPos (run e).events (Event.releaseMemObject BufId.A) <
      firstPos (run e).events Event.releaseContext ∧
    firstPos (run e).events (Event.releaseMemObject BufId.B) <
      firstPos (run e).events Event.releaseContext ∧
    firstPos (run e).events (Event.releaseMemObject BufId.C) <
      firstPos (run e).events Event.releaseContext := by
  rw [run_success e (not_checkFails_of_exit_zero e h)]
  exact successEvents_nesting

theorem buffer_lifetime_nested_in_context_witness :
    (run okEnv).exitCode = 0 ∧
      firstPos (run okEnv).events Event.createContext <
        firstPos (run okEnv).events (Event.createBuffer BufId.A) :=
  ⟨by rfl, (buffer_lifetime_nested_in_context okEnv (by rfl)).1⟩

/-- C9: the abort-on-error helper aborts only on strictly negative status
values: it returns normally exactly on the nonnegative statuses, including
every positive value. -/
theorem check_cont_iff_nonneg : ∀ s : Int, check s = CheckResult.cont ↔ 0 ≤ s := by
  intro s
  unfold check
  split_ifs with h <;> simp <;> omega

theorem check_cont_iff_nonneg_witness : check 7 = CheckResult.cont :=
  (check_cont_iff_nonneg 7).mpr (by decide)

/-- C10: the host input arrays are never written after their initialization
loop — at the end of every run each element of A and B still equals 1 — and
the printed element lines read only C: two successful runs whose final C
arrays agree on all 2048 indices print identical output. -/
theorem inputs_unwritten_after_init (e : Env) :
    (∀ i, i < elements → (run e).a i = 1 ∧ (run e).b i = 1) ∧
    (∀ e2 : Env, (run e).exitCode = 0 → (run e2).exitCode = 0 →
      (∀ i, i < elements → (run e).c i = (run e2).c i) →
      (run e).lines = (run e2).lines) := by
  constructor
  · intro i hi
    constructor <;> (simp only [run]; split_ifs <;> rfl)
  · intro e2 h1 h2 hc
    rw [run_success e (not_checkFails_of_exit_zero e h1)] at hc ⊢
    rw [run_success e2 (not_checkFails_of_exit_zero e2 h2)] at hc ⊢
    show diagLines ++ _ = diagLines ++ _
    refine congrArg (fun t => diagLines ++ t) ?_
    apply List.map_congr_left
    intro i hi
    have hci : downloadedC e (fun _ => 1) (fun _ => 1) i =
        downloadedC e2 (fun _ => 1) (fun _ => 1) i := hc i (List.mem_range.mp hi)
    rw [hci]

theorem inputs_unwritten_after_init_witness :
    (run okEnv).a 5 = 1 ∧ (run okEnv).lines = (run okEnv2).lines :=
  ⟨((inputs_unwritten_after_init okEnv).1 5 (by decide)).1,
   (inputs_unwritten_after_init okEnv).2 okEnv2 (by rfl) (by rfl)
     (fun i hi => by
       rw [run_c_allOk okEnv (by decide) i hi, run_c_allOk okEnv2 (by decide) i hi])⟩
